import Mathlib

/-!
Verification of the listing_assistant repository: a shallow embedding of
the Craigslist scraper (`src/scraper.py`) and of the source-record
persistence / price-aggregation paths of the Flask app (`src/app.py`),
together with theorems settling the specification's claims.
-/

namespace ListingAssistant

/-! ## HTML element model

`Elem` models a parsed BeautifulSoup element: tag name, the raw `class`
attribute string, other attributes, the element's own stripped text, and
child elements in document order.  Children are carried by the companion
type `ElemList` so that every traversal below is structurally
recursive. -/

mutual

inductive Elem where
  | mk (tag classAttr : String) (attrs : List (String × String))
       (ownText : String) (children : ElemList)

inductive ElemList where
  | nil
  | cons (x : Elem) (xs : ElemList)

end

/-- Tag name of an element. -/
def Elem.tag : Elem → String
  | .mk t _ _ _ _ => t

/-- Raw `class` attribute string of an element (`""` when absent). -/
def Elem.classAttr : Elem → String
  | .mk _ c _ _ _ => c

/-- Attribute list of an element. -/
def Elem.attrs : Elem → List (String × String)
  | .mk _ _ a _ _ => a

/-- The element's own stripped text. -/
def Elem.ownText : Elem → String
  | .mk _ _ _ o _ => o

/-- Children of an element. -/
def Elem.children : Elem → ElemList
  | .mk _ _ _ _ ch => ch

/-- Build an `ElemList` from a `List Elem`. -/
def elemsOf : List Elem → ElemList
  | [] => .nil
  | x :: xs => .cons x (elemsOf xs)

/-- Convenience constructor taking children as a plain list. -/
def el (tag classAttr : String) (attrs : List (String × String))
    (ownText : String) (children : List Elem) : Elem :=
  .mk tag classAttr attrs ownText (elemsOf children)

/-- Split a character list at spaces (the multi-valued `class` attribute
tokenisation). -/
def splitSpaces : List Char → List Char → List String
  | [], acc => [String.mk acc.reverse]
  | ' ' :: t, acc => String.mk acc.reverse :: splitSpaces t []
  | c :: t, acc => splitSpaces t (c :: acc)

/-- The class tokens of an element. -/
def classTokens (e : Elem) : List String :=
  splitSpaces e.classAttr.data []

/-- Membership of one class token in the class attribute, matching
BeautifulSoup's multi-valued class matching for `class_='name'`. -/
def hasClass (e : Elem) (c : String) : Bool :=
  (classTokens e).contains c

/-- `element.get(name)`: attribute lookup, `none` when absent. -/
def Elem.attr (e : Elem) (name : String) : Option String :=
  (e.attrs.find? (fun p => p.1 == name)).map (fun p => p.2)

mutual

/-- All elements of the subtree rooted at `e`, in document (preorder)
order. -/
def preorder : Elem → List Elem
  | .mk t c a o ch => .mk t c a o ch :: preorderList ch

def preorderList : ElemList → List Elem
  | .nil => []
  | .cons x xs => preorder x ++ preorderList xs

end

/-- Strict descendants of `e` in document order (BeautifulSoup's `find`
and `find_all` search descendants, not the element itself). -/
def descendants (e : Elem) : List Elem :=
  preorderList e.children

/-- `get_text(strip=True)`: concatenated text of the subtree. The model
stores each element's own text already stripped. -/
def getText (e : Elem) : String :=
  String.join ((preorder e).map (fun d => d.ownText))

/-- Substring test on character lists (Python's `in` on strings). -/
def containsAux : List Char → List Char → Bool
  | hay, pat =>
    pat.isPrefixOf hay ||
      match hay with
      | [] => false
      | _ :: t => containsAux t pat

/-- Python's `pat in s` substring containment. -/
def containsSub (s pat : String) : Bool :=
  containsAux s.data pat.data

/-- Python's `str.lower()` (ASCII model). -/
def lowerStr (s : String) : String :=
  String.mk (s.data.map Char.toLower)

/-- `str.startsWith(p)` on character lists. -/
def myStartsWith (s p : String) : Bool :=
  p.data.isPrefixOf s.data

/-- `soup.find(tag, class_=c)`: first descendant with the tag and class. -/
def findTagClass (e : Elem) (t c : String) : Option Elem :=
  (descendants e).find? (fun d => d.tag == t && hasClass d c)

/-- `soup.find(tag)`: first descendant with the tag. -/
def findTag (e : Elem) (t : String) : Option Elem :=
  (descendants e).find? (fun d => d.tag == t)

/-- `soup.find(tag, class_='a b c')` with a multi-word class string:
BeautifulSoup matches the exact class attribute string. -/
def findTagClassExact (e : Elem) (t c : String) : Option Elem :=
  (descendants e).find? (fun d => d.tag == t && d.classAttr == c)

/-- `select_one('a[href*=sub]')`: first anchor descendant whose href
contains `sub`. -/
def findHrefContains (e : Elem) (sub : String) : Option Elem :=
  (descendants e).find? (fun d =>
    d.tag == "a" &&
      match d.attr "href" with
      | some v => containsSub v sub
      | none => false)

/-- `select_one('[class*=sub]')`: first descendant whose class attribute
contains `sub` as a substring. -/
def findClassContains (e : Elem) (sub : String) : Option Elem :=
  (descendants e).find? (fun d => containsSub d.classAttr sub)

/-- `select_one('[name]')`: first descendant having the attribute. -/
def findAttrPresent (e : Elem) (name : String) : Option Elem :=
  (descendants e).find? (fun d => (d.attr name).isSome)

/-- `soup.find(tag, id=i)`: first descendant with the tag and id. -/
def findTagId (e : Elem) (t i : String) : Option Elem :=
  (descendants e).find? (fun d => d.tag == t && d.attr "id" == some i)

/-- `soup.find_all(tag, class_=c)`. -/
def findAllTagClass (e : Elem) (t c : String) : List Elem :=
  (descendants e).filter (fun d => d.tag == t && hasClass d c)

/-- `soup.find_all(tag)`. -/
def findAllTag (e : Elem) (t : String) : List Elem :=
  (descendants e).filter (fun d => d.tag == t)

/-! ## Price extraction

`re.search(r'\$?(\d+(?:,\d{3})*(?:\.\d{2})?)', text)` followed by
`float(group(1).replace(',', ''))`.  The leftmost match's first capture
group always starts at the first digit of the text. -/

/-- Digits-to-number accumulation (`int` of a digit string). -/
def charsToNat (l : List Char) : Nat :=
  l.foldl (fun a c => a * 10 + (c.toNat - 48)) 0

/-- The regex tail `(?:,\d{3})*`: consume maximal `,ddd` groups, returning
the digits (commas removed, as `replace(',', '')` does) and the rest. -/
def commaGroups : List Char → List Char × List Char
  | ',' :: a :: b :: c :: rest =>
    if a.isDigit && b.isDigit && c.isDigit then
      let p := commaGroups rest
      (a :: b :: c :: p.1, p.2)
    else ([], ',' :: a :: b :: c :: rest)
  | l => ([], l)

/-- The regex tail `(?:\.\d{2})?`: an optional two-decimal fraction. -/
def fracPart : List Char → Option (Char × Char)
  | '.' :: a :: b :: _ => if a.isDigit && b.isDigit then some (a, b) else none
  | _ => none

/-- Extract a numeric price from free text, as the Python regex does:
`none` when the text has no digit, else the value of the leftmost
`\d+(?:,\d{3})*(?:\.\d{2})?` match with commas removed. -/
def extractPrice (s : String) : Option ℚ :=
  let l := s.data.dropWhile (fun c => !c.isDigit)
  if l.isEmpty then none
  else
    let d1 := l.takeWhile Char.isDigit
    let r1 := l.dropWhile Char.isDigit
    let p := commaGroups r1
    let digits := d1 ++ p.1
    match fracPart p.2 with
    | some fr => some ((charsToNat digits : ℚ) + (charsToNat [fr.1, fr.2] : ℚ) / 100)
    | none => some ((charsToNat digits : ℚ))

/-! ## Listing parser (`_parse_listing`) -/

/-- The candidate fields extracted from one result element before the
detail fetch: title, url, price, location, posted date. -/
structure Core where
  title : String
  url : String
  price : Option ℚ
  location : Option String
  posted_date : Option String
deriving DecidableEq

/-- The enrichment fields produced by `_fetch_listing_details`. -/
structure Details where
  description : Option String
  condition : Option String
  measurements : Option String
  image_url : Option String
deriving DecidableEq

/-- The merged record dictionary returned by `_parse_listing`. -/
structure Listing where
  title : String
  url : String
  price : Option ℚ
  location : Option String
  posted_date : Option String
  description : Option String
  condition : Option String
  measurements : Option String
  image_url : Option String
deriving DecidableEq

/-- Model of `urllib.parse.urljoin(base, rel)` for the path-relative hrefs
this scraper sees (the base URLs carry no path component). -/
def urljoin (base rel : String) : String :=
  if myStartsWith rel "/" then base ++ rel else base ++ "/" ++ rel

/-- The link locator chain of `_parse_listing` (lines 131-136). -/
def findLinkElem (e : Elem) : Option Elem :=
  findTagClass e "a" "posting-title" <|> findTagClass e "a" "titlestring" <|>
    findHrefContains e "/d/" <|> findTag e "a"

/-- The fallback title-element chain (lines 159-163). -/
def titleElemChain (e : Elem) : Option Elem :=
  findTagClass e "span" "label" <|> findTagClass e "div" "title" <|> findTag e "h3"

/-- The price-element locator chain (lines 173-177). -/
def priceElemChain (e : Elem) : Option Elem :=
  findTagClass e "span" "priceinfo" <|> findTagClass e "span" "price" <|>
    findClassContains e "price"

/-- The location-element locator chain (lines 188-192). -/
def locElemChain (e : Elem) : Option Elem :=
  findTagClass e "span" "meta" <|> findTagClass e "div" "location" <|>
    findClassContains e "location"

/-- The posting-date locator chain (lines 198-202). -/
def dateElemChain (e : Elem) : Option Elem :=
  findTag e "time" <|> findTagClass e "span" "date" <|> findAttrPresent e "datetime"

/-- The price field of a result element: locate a price element, then
extract a number from its text (lines 172-184). -/
def priceOf (e : Elem) : Option ℚ :=
  match priceElemChain e with
  | some pe => extractPrice (getText pe)
  | none => none

/-- The title resolution of lines 150-169: prefer the link text; on empty
link text fall back to the title-element chain (whose extracted text may
still be empty). -/
def titleOf (e link : Elem) : String :=
  if getText link ≠ "" then getText link
  else
    match titleElemChain e with
    | some te => getText te
    | none => ""

/-- The URL absolutisation of lines 146-148. -/
def urlOf (base url0 : String) : String :=
  if myStartsWith url0 "http" then url0 else urljoin base url0

/-- The location extraction of lines 186-194. -/
def locationOf (e : Elem) : Option String := (locElemChain e).map getText

/-- The date value of a matched date element (lines 203-204): prefer the
`datetime` attribute, falling back to the element text when it is absent
or empty. -/
def dateValOf (de : Elem) : String :=
  match de.attr "datetime" with
  | some v => if v ≠ "" then v else getText de
  | none => getText de

/-- The posted-date extraction of lines 196-204: locate a date element,
then extract its value once. -/
def postedOf (e : Elem) : Option String :=
  (dateElemChain e).map dateValOf

/-- The pure part of `_parse_listing` (lines 129-206): everything up to,
but not including, the detail fetch.  A missing link, a missing or empty
href, or an empty resolved title drops the element (returns `none`). -/
def parseCore (base : String) (e : Elem) : Option Core :=
  match findLinkElem e with
  | none => none
  | some link =>
    match link.attr "href" with
    | none => none
    | some url0 =>
      if url0 = "" then none
      else if titleOf e link = "" then none
      else some ⟨titleOf e link, urlOf base url0, priceOf e, locationOf e, postedOf e⟩

/-! ## Detail fetcher (`_fetch_listing_details`) -/

mutual

/-- The subtree of `e` in document order with every
`div.print-qrcode-container` subtree removed (the `decompose()` of QR
boilerplate at lines 256-258). -/
def qrSkip : Elem → List Elem
  | .mk t c a o ch =>
    if t == "div" && hasClass (.mk t c a o ch) "print-qrcode-container" then []
    else .mk t c a o ch :: qrSkipList ch

def qrSkipList : ElemList → List Elem
  | .nil => []
  | .cons x xs => qrSkip x ++ qrSkipList xs

end

/-- `get_text(strip=True)` of the posting body after removing QR-code
containers. -/
def getTextNoQR (e : Elem) : String :=
  String.join ((e :: qrSkipList e.children).map (fun d => d.ownText))

/-- Description extraction: `find('section', id='postingbody')` with QR
boilerplate removed (lines 254-259). -/
def extractDescription (page : Elem) : Option String :=
  (findTagId page "section" "postingbody").map getTextNoQR

/-- Python regex `\w` (ASCII model). -/
def wordChar (c : Char) : Bool := c.isAlphanum || c == '_'

/-- `re.search(r'condition:\s*(\w+)', text, re.IGNORECASE)`: leftmost
case-insensitive `condition:` label followed by optional whitespace and a
non-empty word, returning the word. -/
def condSearch : List Char → Option (List Char)
  | [] => none
  | c :: t =>
    if ((c :: t).take 10).map Char.toLower == "condition:".data then
      let w := (((c :: t).drop 10).dropWhile Char.isWhitespace).takeWhile wordChar
      if w.isEmpty then condSearch t else some w
    else condSearch t

/-- Python's `str.title()`: letters after a non-letter are uppercased,
letters after a letter are lowercased. -/
def titleCaseAux : Bool → List Char → List Char
  | _, [] => []
  | prev, c :: t =>
    if c.isAlpha then (if prev then c.toLower else c.toUpper) :: titleCaseAux true t
    else c :: titleCaseAux false t

/-- Python's `str.title()` on a string. -/
def titleCase (s : String) : String := String.mk (titleCaseAux false s.data)

/-- The dimension-vocabulary test of line 273. -/
def dimKeyword (t : String) : Bool :=
  ["dimension", "size", "measurement", "\"", "inches", "feet", "cm", "mm"].any
    (fun k => containsSub (lowerStr t) k)

/-- The attribute-group scan of lines 262-274: fold over all span texts in
order; the condition and measurements assignments each keep the last
match (later spans overwrite earlier ones). -/
def scanSpans (texts : List String) : Option String × Option String :=
  texts.foldl
    (fun acc t =>
      let c :=
        if containsSub (lowerStr t) "condition:" then
          match condSearch t.data with
          | some w => some (titleCase (String.mk w))
          | none => acc.1
        else acc.1
      let m := if dimKeyword t then some t else acc.2
      (c, m))
    (none, none)

/-- All span texts inside `p.attrgroup` blocks, in document order. -/
def attrSpanTexts (page : Elem) : List String :=
  ((findAllTagClass page "p" "attrgroup").map fun g =>
    (findAllTag g "span").map getText).flatten

mutual

/-- `select_one('.gallery img')` worker: first img element, in document
order, having a strict ancestor with class `gallery`; `g` records whether
such an ancestor has been passed. -/
def findImgGallery (g : Bool) : Elem → Option Elem
  | .mk t c a o ch =>
    if g && t == "img" then some (.mk t c a o ch)
    else findImgGalleryList (g || hasClass (.mk t c a o ch) "gallery") ch

def findImgGalleryList (g : Bool) : ElemList → Option Elem
  | .nil => none
  | .cons x xs =>
    match findImgGallery g x with
    | some r => some r
    | none => findImgGalleryList g xs

end

/-- `select_one('.gallery img')` on a page. -/
def selectGalleryImg (page : Elem) : Option Elem :=
  findImgGalleryList (hasClass page "gallery") page.children

/-- `find('img', src=re.compile(r'images\.craigslist\.org'))`. -/
def findImgSrcCdn (e : Elem) : Option Elem :=
  (descendants e).find? fun d =>
    d.tag == "img" &&
      match d.attr "src" with
      | some v => containsSub v "images.craigslist.org"
      | none => false

/-- The image locator chain of lines 277-282. -/
def imageElemChain (page : Elem) : Option Elem :=
  findTagClassExact page "div" "slide first visible" <|>
    findTagClass page "div" "slide" <|> selectGalleryImg page <|> findImgSrcCdn page

/-- The per-element image-url extraction of lines 284-290: a direct img's
src attribute verbatim; otherwise the first nested img's src when
non-empty. -/
def imgSrcOf (ie : Elem) : Option String :=
  if ie.tag == "img" then ie.attr "src"
  else
    match findTag ie "img" with
    | none => none
    | some im =>
      match im.attr "src" with
      | some v => if v = "" then none else some v
      | none => none

/-- The image-url extraction of lines 277-290: locate an image element,
then extract from it once. -/
def extractImage (page : Elem) : Option String :=
  match imageElemChain page with
  | none => none
  | some ie => imgSrcOf ie

/-- `_fetch_listing_details(url)`: the network environment `net` maps a
URL to its parsed page, `none` standing for any transport failure
(timeout, connection error, HTTP error status).  On failure every field of
the returned record stays absent; no exception escapes. -/
def fetchListingDetails (net : String → Option Elem) (url : String) : Details :=
  match net url with
  | none => ⟨none, none, none, none⟩
  | some page =>
    let cm := scanSpans (attrSpanTexts page)
    { description := extractDescription page
      condition := cm.1
      measurements := cm.2
      image_url := extractImage page }

/-- The result dictionary of `_parse_listing` (lines 211-221). -/
def mergeDetails (c : Core) (d : Details) : Listing :=
  ⟨c.title, c.url, c.price, c.location, c.posted_date,
    d.description, d.condition, d.measurements, d.image_url⟩

/-- `_parse_listing`: resolve the candidate fields, then fetch the detail
page for the resolved URL and merge the enrichment fields in. -/
def parseListing (net : String → Option Elem) (base : String) (e : Elem) :
    Option Listing :=
  (parseCore base e).map fun c => mergeDetails c (fetchListingDetails net c.url)

/-! ## Search orchestrator (`search`) -/

/-- Uppercase hex digit of a nibble. -/
def hexDigit (n : Nat) : Char :=
  if n < 10 then Char.ofNat (48 + n) else Char.ofNat (55 + n)

/-- UTF-8 encoding of one character as byte values. -/
def utf8Bytes (c : Char) : List Nat :=
  let n := c.toNat
  if n < 128 then [n]
  else if n < 2048 then [192 + n / 64, 128 + n % 64]
  else if n < 65536 then [224 + n / 4096, 128 + (n / 64) % 64, 128 + n % 64]
  else [240 + n / 262144, 128 + (n / 4096) % 64, 128 + (n / 64) % 64, 128 + n % 64]

/-- `urllib.parse.quote_plus`: alphanumerics and `-._~` pass through,
space becomes `+`, every other UTF-8 byte is percent-encoded. -/
def quotePlus (s : String) : String :=
  String.mk (((s.data.map utf8Bytes).flatten).map (fun n =>
    if (48 ≤ n ∧ n ≤ 57) ∨ (65 ≤ n ∧ n ≤ 90) ∨ (97 ≤ n ∧ n ≤ 122) ∨
        n ∈ [45, 46, 95, 126] then [Char.ofNat n]
    else if n = 32 then ['+']
    else ['%', hexDigit (n / 16), hexDigit (n % 16)])).flatten

/-- The search URL of line 54. -/
def searchUrl (base query : String) : String :=
  base ++ "/search/sss?query=" ++ quotePlus query ++ "&sort=rel"

/-- The `BASE_URLS` class dictionary. -/
def BASE_URLS : List (String × String) :=
  [("vermont", "https://vermont.craigslist.org"),
   ("newhampshire", "https://nh.craigslist.org"),
   ("boston", "https://boston.craigslist.org")]

/-- `CraigslistScraper.__init__`'s base-URL choice:
`BASE_URLS.get(region, BASE_URLS['vermont'])`. -/
def baseUrlFor (region : String) : String :=
  match BASE_URLS.find? (fun p => p.1 == region) with
  | some p => p.2
  | none => "https://vermont.craigslist.org"

/-- `find_all('li', class_=re.compile(r'result|search-result'))`: any
class token containing `result` (the second alternative is subsumed). -/
def resultClassPattern (d : Elem) : Bool :=
  (classTokens d).any (fun c => containsSub c "result")

/-- The result-element locator cascade of lines 70-84. -/
def locateResults (soup : Elem) : List Elem :=
  let l1 := findAllTagClass soup "li" "cl-static-search-result"
  if !l1.isEmpty then l1
  else
    let l2 := findAllTagClass soup "li" "result-row"
    if !l2.isEmpty then l2
    else (descendants soup).filter (fun d => d.tag == "li" && resultClassPattern d)

/-- `CraigslistScraper.search(query)`: fetch the results page (`none` from
`net` models a `requests.exceptions.RequestException`, caught at line
115), locate result elements, and parse at most `maxResults` of them,
skipping elements whose parse yields nothing. -/
def search (net : String → Option Elem) (base query : String)
    (maxResults : Nat) : List Listing :=
  match net (searchUrl base query) with
  | none => []
  | some soup =>
    let listings := locateResults soup
    if listings.isEmpty then []
    else (listings.take maxResults).filterMap (parseListing net base)

/-! ## Persistence and price aggregation (`src/app.py`)

Modelled from the spec where the schema file is not under `src/`: the
`craigslist_sources` table has a serial `id`, a uniqueness constraint on
`(listing_id, url)` (relied on by both `ON CONFLICT` clauses in
`src/app.py`), and a `scraped_at` timestamp defaulting to the insert
time.  Timestamps are abstracted as naturals. -/

/-- One persisted row of `craigslist_sources`. -/
structure SourceRow where
  id : ℕ
  listing_id : ℕ
  url : String
  title : String
  price : Option ℚ
  location : Option String
  posted_date : Option String
  description : Option String
  condition : Option String
  measurements : Option String
  image_url : Option String
  scraped_at : ℕ
deriving DecidableEq

/-- The ten column values supplied by either INSERT statement. -/
structure NewSource where
  listing_id : ℕ
  url : String
  title : String
  price : Option ℚ
  location : Option String
  posted_date : Option String
  description : Option String
  condition : Option String
  measurements : Option String
  image_url : Option String
deriving DecidableEq

/-- The conflict key `(listing_id, url)`. -/
def rowKey (r : SourceRow) : ℕ × String := (r.listing_id, r.url)

/-- Whether a row with the given key exists. -/
def keyPresent (db : List SourceRow) (k : ℕ × String) : Bool :=
  db.any (fun r => rowKey r == k)

/-- The `DO UPDATE SET` clause of `add_source_to_listing` (lines 490-499):
overwrite every scraped column and refresh `scraped_at`. -/
def applyUpdate (s : NewSource) (now : ℕ) (r : SourceRow) : SourceRow :=
  { r with
    title := s.title, price := s.price, location := s.location,
    posted_date := s.posted_date, description := s.description,
    condition := s.condition, measurements := s.measurements,
    image_url := s.image_url, scraped_at := now }

/-- A freshly inserted row. -/
def newRow (s : NewSource) (now nid : ℕ) : SourceRow :=
  ⟨nid, s.listing_id, s.url, s.title, s.price, s.location, s.posted_date,
    s.description, s.condition, s.measurements, s.image_url, now⟩

/-- The single-add INSERT (lines 485-512):
`ON CONFLICT (listing_id, url) DO UPDATE SET …`. -/
def upsertSource (db : List SourceRow) (s : NewSource) (now nid : ℕ) :
    List SourceRow :=
  if keyPresent db (s.listing_id, s.url) then
    db.map fun r => if rowKey r == (s.listing_id, s.url) then applyUpdate s now r else r
  else db ++ [newRow s now nid]

/-- The bulk scrape-add INSERT (lines 652-670):
`ON CONFLICT (listing_id, url) DO NOTHING`. -/
def insertIgnoreSource (db : List SourceRow) (s : NewSource) (now nid : ℕ) :
    List SourceRow :=
  if keyPresent db (s.listing_id, s.url) then db else db ++ [newRow s now nid]

/-- The aggregate row returned by the recompute SELECT. -/
structure PriceStats where
  source_count : ℕ
  min_price : Option ℚ
  max_price : Option ℚ
  avg_price : Option ℚ
deriving DecidableEq

/-- Prices of an item's source rows with non-null price (the
`WHERE listing_id = %s AND price IS NOT NULL` filter), in row order. -/
def pricesFor (db : List SourceRow) (lid : ℕ) : List ℚ :=
  (db.filter fun r => r.listing_id == lid && r.price.isSome).filterMap
    (fun r => r.price)

/-- SQL `MIN` over a list, `NULL` on the empty set. -/
def listMin : List ℚ → Option ℚ
  | [] => none
  | h :: t => some (t.foldl min h)

/-- SQL `MAX` over a list, `NULL` on the empty set. -/
def listMax : List ℚ → Option ℚ
  | [] => none
  | h :: t => some (t.foldl max h)

/-- The recompute SELECT (`COUNT`, `MIN`, `MAX`, `AVG` over non-null
prices of one listing), appearing identically at lines 518-526, 698-706
and 973-981. -/
def priceStats (db : List SourceRow) (lid : ℕ) : PriceStats :=
  let ps := pricesFor db lid
  { source_count := ps.length
    min_price := listMin ps
    max_price := listMax ps
    avg_price := if ps.isEmpty then none else some (ps.sum / (ps.length : ℚ)) }

/-- Python 3 `round(x, 2)`: round half to even at the second decimal. -/
def roundHalfEven (q : ℚ) : ℤ :=
  if q - ⌊q⌋ < 1 / 2 then ⌊q⌋
  else if 1 / 2 < q - ⌊q⌋ then ⌊q⌋ + 1
  else if ⌊q⌋ % 2 = 0 then ⌊q⌋ else ⌊q⌋ + 1

/-- Round a rational to 2 decimal places, half to even. -/
def round2 (q : ℚ) : ℚ := (roundHalfEven (q * 100) : ℚ) / 100

/-- The derived price fields (and lifecycle status) of one
`craigslist_listings` row. -/
structure Item where
  price_min : Option ℚ
  price_max : Option ℚ
  suggested_price : Option ℚ
  status : String
deriving DecidableEq

/-- The `UPDATE craigslist_listings SET price_min …` statement shared by
the three recompute sites; `suggested_price` is
`round(avg, 2) if stats['avg_price'] else None`, so a zero (or null)
average stores NULL. -/
def applyStatsUpdate (st : PriceStats) (it : Item) : Item :=
  { it with
    price_min := st.min_price
    price_max := st.max_price
    suggested_price :=
      match st.avg_price with
      | some a => if a = 0 then none else some (round2 a)
      | none => none }

/-- The recompute block of `add_source_to_listing` (lines 528-544): update
the item only when at least one priced source exists; otherwise the
UPDATE is skipped entirely. -/
def recomputeAfterAdd (db : List SourceRow) (lid : ℕ) (it : Item) : Item :=
  let st := priceStats db lid
  if 0 < st.source_count then applyStatsUpdate st it else it

/-- The recompute block of `scrape_craigslist_sources` (lines 708-740):
update prices and set status `ready` when priced sources exist, else only
set status `ready`. -/
def recomputeAfterScrape (db : List SourceRow) (lid : ℕ) (it : Item) : Item :=
  let st := priceStats db lid
  if 0 < st.source_count then { applyStatsUpdate st it with status := "ready" }
  else { it with status := "ready" }

/-- The recompute block of `delete_source` (lines 983-1014): update prices
when priced sources remain, else clear all three price fields to NULL. -/
def recomputeAfterDelete (db : List SourceRow) (lid : ℕ) (it : Item) : Item :=
  let st := priceStats db lid
  if 0 < st.source_count then applyStatsUpdate st it
  else { it with price_min := none, price_max := none, suggested_price := none }

/-- The unconditional pricing clear of `delete_all_sources`
(lines 1065-1072). -/
def clearPricing (it : Item) : Item :=
  { it with price_min := none, price_max := none, suggested_price := none }

/-- The single-add route: upsert one source, then recompute. -/
def addSourcePath (db : List SourceRow) (s : NewSource) (now nid : ℕ)
    (it : Item) : List SourceRow × Item :=
  let db2 := upsertSource db s now nid
  (db2, recomputeAfterAdd db2 s.listing_id it)

/-- The save loop of `scrape_craigslist_sources` (lines 646-684): insert
each result in order with conflict-ignore semantics. -/
def scrapeInsertAll (db : List SourceRow) (results : List NewSource)
    (now nid : ℕ) : List SourceRow :=
  match results with
  | [] => db
  | s :: rest => scrapeInsertAll (insertIgnoreSource db s now nid) rest now (nid + 1)

/-- The bulk scrape-add route: insert all results, then recompute. -/
def scrapeAddPath (db : List SourceRow) (lid : ℕ) (results : List NewSource)
    (now nid : ℕ) (it : Item) : List SourceRow × Item :=
  let db2 := scrapeInsertAll db results now nid
  (db2, recomputeAfterScrape db2 lid it)

/-- The single-delete route (`delete_source`): verify the source belongs
to the listing, delete it, then recompute. -/
def deleteSourcePath (db : List SourceRow) (lid sid : ℕ) (it : Item) :
    List SourceRow × Item :=
  if db.any (fun r => r.id == sid && r.listing_id == lid) then
    let db2 := db.filter fun r => !(r.id == sid)
    (db2, recomputeAfterDelete db2 lid it)
  else (db, it)

/-- The delete-all route (`delete_all_sources`): delete every source of
the listing and clear its pricing unconditionally. -/
def deleteAllPath (db : List SourceRow) (lid : ℕ) (it : Item) :
    List SourceRow × Item :=
  (db.filter (fun r => !(r.listing_id == lid)), clearPricing it)

/-! ## Concrete fixtures used by witnesses and counterexamples -/

/-- A span element with a class and text. -/
def tSpan (cls txt : String) : Elem := el "span" cls [] txt []

/-- An anchor element with an href and text. -/
def tA (href txt : String) : Elem := el "a" "" [("href", href)] txt []

/-- A detail page whose posting body holds the given text. -/
def detailPage (d : String) : Elem :=
  el "html" "" [] "" [el "section" "" [("id", "postingbody")] d []]

/-- A result element whose first price locator matches an element with no
numeric text while the second locator's element has a price. -/
def c4elem : Elem :=
  el "li" "" [] ""
    [tA "/d/widget/123.html" "Nice Widget",
     tSpan "priceinfo" "Contact seller", tSpan "price" "$20"]

/-- A result element with no `span.priceinfo` but a `span.price`. -/
def c4elem2 : Elem :=
  el "li" "" [] "" [tA "/d/widget/124.html" "Other Widget", tSpan "price" "$30"]

/-- The matched first-locator elements of `c4eS`. -/
def c4link : Elem := el "a" "posting-title" [("href", "/d/a/1.html")] "L" []

/-- The `span.label` element of `c4eS`. -/
def c4label : Elem := tSpan "label" "T"

/-- The `span.priceinfo` element of `c4eS`. -/
def c4pinfo : Elem := tSpan "priceinfo" "$5"

/-- The `span.meta` element of `c4eS`. -/
def c4meta : Elem := tSpan "meta" "Here"

/-- The `time` element of `c4eS`. -/
def c4time : Elem := el "time" "" [("datetime", "2024-01-01")] "" []

/-- A result element on which every field's first locator matches. -/
def c4eS : Elem := el "li" "" [] "" [c4link, c4label, c4pinfo, c4meta, c4time]

/-- A result element on which no first locator matches anything. -/
def c4eN : Elem := el "li" "" [] "" []

/-- A slide div with the exact class attribute string. -/
def c4slide : Elem :=
  el "div" "slide first visible" [] ""
    [el "img" "" [("src", "http://img.example/1.jpg")] "" []]

/-- A detail page whose first image locator matches `c4slide`. -/
def c4pS : Elem := el "html" "" [] "" [c4slide]

/-- An anchor with non-empty link text. -/
def c4linkA : Elem := tA "/d/z/1.html" "Hello"

/-- An anchor with empty link text. -/
def c4emptyLink : Elem := el "a" "" [("href", "/d/x/3.html")] "" []

/-- A fallback title element. -/
def c4fallback : Elem := tSpan "label" "Fallback"

/-- A result element whose anchor has empty text but which carries a
fallback title element. -/
def c4eT : Elem := el "li" "" [] "" [c4emptyLink, c4fallback]

/-- A result element with a link, title and price. -/
def c5elem : Elem :=
  el "li" "" [] "" [tA "/d/widget/123.html" "Nice Widget"]

/-- A network in which every detail page has description `A`. -/
def c5net1 : String → Option Elem := fun _ => some (detailPage "A")

/-- A network in which every detail page has description `B`. -/
def c5net2 : String → Option Elem := fun _ => some (detailPage "B")

/-- A result element whose price element's text has no digits. -/
def c8elem : Elem :=
  el "li" "" [] ""
    [tA "/d/table/9.html" "Table", tSpan "priceinfo" "Contact for price"]

/-- A network where every fetch fails. -/
def failNet : String → Option Elem := fun _ => none

/-- A result element with a link and title. -/
def c9e : Elem := el "li" "" [] "" [tA "/d/chair/1.html" "Chair"]

/-- A result element containing no anchor at all. -/
def c9noLink : Elem := el "li" "" [] "text" [tSpan "label" "Something"]

/-- The anchor of `c9noTitle`: non-empty href, empty text. -/
def c9link : Elem := el "a" "" [("href", "/d/x/2.html")] "" []

/-- A result element whose only anchor has empty text, with no fallback
title element. -/
def c9noTitle : Elem := el "li" "" [] "" [c9link]

/-- The parse result of `c9e` under `failNet`. -/
def c9rec : Listing :=
  ⟨"Chair", "https://vermont.craigslist.org/d/chair/1.html", none, none, none,
    none, none, none, none⟩

/-- An existing source row for listing 1, url `u`, price 10. -/
def c1row : SourceRow :=
  ⟨1, 1, "u", "old", some 10, none, none, none, none, none, none, 0⟩

/-- A newly scraped record with the same key but different fields. -/
def c1new : NewSource :=
  ⟨1, "u", "new", some 20, some "Burlington", none, none, none, none, none⟩

/-- An item with stale price fields. -/
def c2staleItem : Item := ⟨some 5, some 7, some 6, "ready"⟩

/-- A scraped source with no price. -/
def c2nullSource : NewSource :=
  ⟨1, "u2", "t", none, none, none, none, none, none, none⟩

/-- A db whose only row for listing 1 has a null price. -/
def c2dbZero : List SourceRow :=
  [⟨1, 1, "u2", "t", none, none, none, none, none, none, none, 0⟩]

/-- A db whose only row for listing 1 has price 10. -/
def c2dbPos : List SourceRow :=
  [⟨1, 1, "u3", "t", some 10, none, none, none, none, none, none, 0⟩]

/-- The C3 fixture: prices 10.00, 20.00, 15.50 and one null price. -/
def c3rows : List SourceRow :=
  [⟨1, 1, "u1", "a", some 10, none, none, none, none, none, none, 0⟩,
   ⟨2, 1, "u2", "b", some 20, none, none, none, none, none, none, 0⟩,
   ⟨3, 1, "u3", "c", some 15.5, none, none, none, none, none, none, 0⟩,
   ⟨4, 1, "u4", "d", none, none, none, none, none, none, none, 0⟩]

/-- An item with empty derived fields. -/
def itBlank : Item := ⟨none, none, none, "draft"⟩

/-- The candidate-field projection of a merged record. -/
def coreOf (l : Listing) : Core := ⟨l.title, l.url, l.price, l.location, l.posted_date⟩

/-! ## Claim theorems -/

/-- A string with a non-empty right factor is non-empty. -/
theorem append_ne_empty_right (s t : String) (h : t ≠ "") : s ++ t ≠ "" := by
  intro hc
  apply h
  have hl := congrArg String.length hc
  rw [String.length_append] at hl
  have hz : ("" : String).length = 0 := rfl
  have h0 : t.length = 0 := by omega
  cases t with
  | mk data =>
    have hd : data = [] := List.length_eq_zero.mp h0
    rw [hd]

/-- The absolutised URL is non-empty whenever the href text is. -/
theorem urlOf_ne_empty (base url0 : String) (h : url0 ≠ "") :
    urlOf base url0 ≠ "" := by
  unfold urlOf urljoin
  split_ifs
  · exact h
  · exact append_ne_empty_right base url0 h
  · exact append_ne_empty_right (base ++ "/") url0 h

/-- Every record produced by `parseCore` carries a non-empty title and a
non-empty URL. -/
theorem parseCore_some_inv (base : String) (e : Elem) (c : Core)
    (h : parseCore base e = some c) : c.title ≠ "" ∧ c.url ≠ "" := by
  unfold parseCore at h
  split at h
  · simp at h
  · split at h
    · simp at h
    · split_ifs at h with hu ht
      rw [Option.some.injEq] at h
      subst h
      exact ⟨ht, urlOf_ne_empty base _ hu⟩

/-- An element with no resolvable link yields no record. -/
theorem parseCore_none_of_no_link (base : String) (e : Elem)
    (h : findLinkElem e = none) : parseCore base e = none := by
  unfold parseCore
  rw [h]

/-- An element whose link text is empty, with no fallback title element,
yields no record. -/
theorem parseCore_none_of_no_title (base : String) (e link : Elem)
    (hl : findLinkElem e = some link) (ht1 : getText link = "")
    (ht2 : titleElemChain e = none) : parseCore base e = none := by
  have hti : titleOf e link = "" := by
    simp [titleOf, ht1, ht2]
  cases hhr : link.attr "href" with
  | none => simp [parseCore, hl, hhr]
  | some url0 => simp [parseCore, hl, hhr, hti]

/-- Claim C9: every record emitted by the listing parser has a non-empty
title and a non-empty URL; a result element with no resolvable link, or
with no resolvable (non-empty) title, yields no record at all rather
than a record with null fields. -/
theorem C9_title_url_invariant (net : String → Option Elem) (base : String)
    (e eNL eNT link : Elem) (r : Listing)
    (h : parseListing net base e = some r)
    (hnl : findLinkElem eNL = none)
    (hl : findLinkElem eNT = some link)
    (ht1 : getText link = "")
    (ht2 : titleElemChain eNT = none) :
    r.title ≠ "" ∧ r.url ≠ ""
    ∧ parseListing net base eNL = none
    ∧ parseListing net base eNT = none := by
  obtain ⟨c, hc, hr⟩ : ∃ c, parseCore base e = some c ∧
      r = mergeDetails c (fetchListingDetails net c.url) := by
    unfold parseListing at h
    cases hpc : parseCore base e with
    | none => rw [hpc] at h; simp at h
    | some c =>
      rw [hpc] at h
      simp only [Option.map_some'] at h
      injection h with h'
      exact ⟨c, rfl, h'.symm⟩
  have hinv := parseCore_some_inv base e c hc
  refine ⟨?_, ?_, ?_, ?_⟩
  · rw [hr]; exact hinv.1
  · rw [hr]; exact hinv.2
  · unfold parseListing
    rw [parseCore_none_of_no_link base eNL hnl]
    rfl
  · unfold parseListing
    rw [parseCore_none_of_no_title base eNT link hl ht1 ht2]
    rfl

/-- Witness for C9 on concrete elements: one that parses (to a record
with non-empty title and URL), one with no anchor, one whose anchor has
empty text and no fallback title element. -/
theorem C9_title_url_invariant_witness :
    c9rec.title ≠ "" ∧ c9rec.url ≠ ""
    ∧ parseListing failNet "https://vermont.craigslist.org" c9noLink = none
    ∧ parseListing failNet "https://vermont.craigslist.org" c9noTitle = none :=
  C9_title_url_invariant failNet "https://vermont.craigslist.org"
    c9e c9noLink c9noTitle c9link c9rec rfl rfl rfl rfl rfl

/-- Claim C4 (amended): for every extracted field — link, title, price,
location, posted date, and the detail fetcher's image — the ordered
locators are evaluated left-to-right and the first locator that matches
an element wins; a locator matching no element falls through to the rest
of its chain.  Extraction is then applied once, to the selected element
only (`priceOf`/`locationOf`/`postedOf`/`extractImage` are each
determined by the first match), so an extraction that yields nothing
leaves the field absent instead of falling through.  The one exception
is the title's link-text step, which does fall through to the title
element chain on empty text; once that chain selects an element, its
text is taken as the title even when empty. -/
theorem C4_locator_fallback (eS eN pS pN eT : Elem)
    (xLink xTitle xPrice xLoc xDate xImg linkA linkE te : Elem)
    (hL1 : findTagClass eS "a" "posting-title" = some xLink)
    (hT1 : findTagClass eS "span" "label" = some xTitle)
    (hP1 : findTagClass eS "span" "priceinfo" = some xPrice)
    (hG1 : findTagClass eS "span" "meta" = some xLoc)
    (hD1 : findTag eS "time" = some xDate)
    (hI1 : findTagClassExact pS "div" "slide first visible" = some xImg)
    (hL0 : findTagClass eN "a" "posting-title" = none)
    (hT0 : findTagClass eN "span" "label" = none)
    (hP0 : findTagClass eN "span" "priceinfo" = none)
    (hG0 : findTagClass eN "span" "meta" = none)
    (hD0 : findTag eN "time" = none)
    (hI0 : findTagClassExact pN "div" "slide first visible" = none)
    (hTA : getText linkA ≠ "")
    (hTE : getText linkE = "")
    (hTC : titleElemChain eT = some te) :
    findLinkElem eS = some xLink
    ∧ titleElemChain eS = some xTitle
    ∧ priceElemChain eS = some xPrice
    ∧ priceOf eS = extractPrice (getText xPrice)
    ∧ locElemChain eS = some xLoc
    ∧ locationOf eS = some (getText xLoc)
    ∧ dateElemChain eS = some xDate
    ∧ postedOf eS = some (dateValOf xDate)
    ∧ imageElemChain pS = some xImg
    ∧ extractImage pS = imgSrcOf xImg
    ∧ findLinkElem eN =
        (findTagClass eN "a" "titlestring" <|> findHrefContains eN "/d/" <|>
          findTag eN "a")
    ∧ titleElemChain eN = (findTagClass eN "div" "title" <|> findTag eN "h3")
    ∧ priceElemChain eN =
        (findTagClass eN "span" "price" <|> findClassContains eN "price")
    ∧ locElemChain eN =
        (findTagClass eN "div" "location" <|> findClassContains eN "location")
    ∧ dateElemChain eN =
        (findTagClass eN "span" "date" <|> findAttrPresent eN "datetime")
    ∧ imageElemChain pN =
        (findTagClass pN "div" "slide" <|> selectGalleryImg pN <|> findImgSrcCdn pN)
    ∧ (∀ eAny, titleOf eAny linkA = getText linkA)
    ∧ titleOf eT linkE = getText te := by
  refine ⟨?_, ?_, ?_, ?_, ?_, ?_, ?_, ?_, ?_, ?_, ?_, ?_, ?_, ?_, ?_, ?_, ?_, ?_⟩
  · simp [findLinkElem, hL1]
  · simp [titleElemChain, hT1]
  · simp [priceElemChain, hP1]
  · simp [priceOf, priceElemChain, hP1]
  · simp [locElemChain, hG1]
  · simp [locationOf, locElemChain, hG1]
  · simp [dateElemChain, hD1]
  · simp [postedOf, dateElemChain, hD1]
  · simp [imageElemChain, hI1]
  · simp [extractImage, imageElemChain, hI1]
  · simp [findLinkElem, hL0]
  · simp [titleElemChain, hT0]
  · simp [priceElemChain, hP0]
  · simp [locElemChain, hG0]
  · simp [dateElemChain, hD0]
  · simp [imageElemChain, hI0]
  · intro eAny
    simp [titleOf, hTA]
  · simp [titleOf, hTE, hTC]

/-- Witness for C4 on concrete elements: an element whose first locators
all match, an element on which they all miss, a detail page whose exact
slide div matches, and a title fall-through from an empty-text anchor to
a fallback label. -/
theorem C4_locator_fallback_witness :
    priceElemChain c4eS = some c4pinfo
    ∧ priceOf c4eS = extractPrice (getText c4pinfo)
    ∧ priceElemChain c4eN =
        (findTagClass c4eN "span" "price" <|> findClassContains c4eN "price")
    ∧ extractImage c4pS = imgSrcOf c4slide
    ∧ titleOf c4eT c4emptyLink = getText c4fallback := by
  have h := C4_locator_fallback c4eS c4eN c4pS c4eN c4eT
    c4link c4label c4pinfo c4meta c4time c4slide c4linkA c4emptyLink c4fallback
    rfl rfl rfl rfl rfl rfl rfl rfl rfl rfl rfl rfl (by decide) rfl rfl
  obtain ⟨h1, h2, h3, h4, h5, h6, h7, h8, h9, h10, h11, h12, h13, h14, h15,
    h16, h17, h18⟩ := h
  exact ⟨h3, h4, h13, h10, h18⟩

/-- Counterexample to C4 as stated: in `c4elem` the first price strategy
matches an element whose text extracts nothing, the second strategy's
element would extract 20, yet the price field is absent — a strategy that
extracts nothing does not fall through to the next strategy. -/
theorem C4_counterexample :
    (findTagClass c4elem "span" "priceinfo").map getText = some "Contact seller"
    ∧ extractPrice "Contact seller" = none
    ∧ (findTagClass c4elem "span" "price").map getText = some "$20"
    ∧ extractPrice "$20" = some 20
    ∧ priceOf c4elem = none := by
  decide

/-- Claim C5 (amended): the candidate fields (title, url, price, location,
posted date) of `_parse_listing`'s output, and whether a record is
produced at all, are independent of the network environment; but the
function itself performs the detail fetch, so the enrichment fields of
its result do depend on the detail page (see the counterexample). -/
theorem C5_parser_network_independence (net net2 : String → Option Elem)
    (base : String) (e : Elem) :
    (parseListing net base e).map coreOf = (parseListing net2 base e).map coreOf
    ∧ ((parseListing net base e) = none ↔ (parseListing net2 base e) = none) := by
  unfold parseListing
  cases parseCore base e <;> simp [coreOf, mergeDetails]

/-- Counterexample to C5 as stated: the same result element parsed under
two networks whose detail pages differ yields different records, so
`_parse_listing` is not independent of detail-page content. -/
theorem C5_counterexample :
    parseListing c5net1 "https://vermont.craigslist.org" c5elem ≠
      parseListing c5net2 "https://vermont.craigslist.org" c5elem := by
  decide

/-- Claim C8: price text with no digit yields an absent price — not zero
and not an exception — and the candidate record is otherwise kept (shown
on a concrete element whose price text is unparsable: the parse still
returns a record, with a null price). -/
theorem C8_unparsable_price (s : String)
    (h : ∀ c ∈ s.data, c.isDigit = false) :
    extractPrice s = none
    ∧ (parseListing failNet "https://vermont.craigslist.org" c8elem).map
        (fun r => r.price) = some none := by
  constructor
  · have hnil : s.data.dropWhile (fun c => !c.isDigit) = [] := by
      rw [List.dropWhile_eq_nil_iff]
      intro c hc
      simp [h c hc]
    simp [extractPrice, hnil]
  · decide

/-- Witness for C8 at the spec's example text `Contact for price`. -/
theorem C8_unparsable_price_witness :
    extractPrice "Contact for price" = none
    ∧ (parseListing failNet "https://vermont.craigslist.org" c8elem).map
        (fun r => r.price) = some none :=
  C8_unparsable_price "Contact for price" (by decide)

/-- A key occurring in a table with pairwise-distinct keys occurs in
exactly one row. -/
theorem countP_key_unique (db : List SourceRow) (k : ℕ × String)
    (hu : (db.map rowKey).Nodup) (r0 : SourceRow) (hm : r0 ∈ db)
    (hk : rowKey r0 = k) :
    db.countP (fun r => rowKey r == k) = 1 := by
  induction db with
  | nil => cases hm
  | cons x xs ih =>
    rw [List.map_cons, List.nodup_cons] at hu
    rw [List.countP_cons]
    cases hm with
    | head =>
      have hx : (rowKey r0 == k) = true := by simp [hk]
      have hz : xs.countP (fun r => rowKey r == k) = 0 := by
        rw [List.countP_eq_zero]
        intro r hr
        simp only [beq_iff_eq]
        intro hrk
        exact hu.1 (List.mem_map.mpr ⟨r, hr, by rw [hrk, ← hk]⟩)
      simp [hz, hx]
    | tail _ hm' =>
      have hx : (rowKey x == k) = false := by
        simp only [beq_eq_false_iff_ne]
        intro hxk
        exact hu.1 (List.mem_map.mpr ⟨r0, hm', by rw [hk, ← hxk]⟩)
      rw [ih hu.2 hm']
      simp [hx]

/-- Claim C1 (amended): on a conflict at an existing (item_id, url) row,
the single-add path's upsert overwrites every scraped field and refreshes
the scrape timestamp, leaving exactly one row (with the latest values),
preserving key uniqueness, and — both operations being total — surfacing
no uniqueness violation; the bulk scrape-add path instead leaves the
conflicting row, and the whole table, unchanged (`DO NOTHING`): still
exactly one row and no error, but with the old values, not the latest. -/
theorem C1_upsert_conflict (db : List SourceRow) (s : NewSource)
    (now nid : ℕ) (r0 : SourceRow)
    (hu : (db.map rowKey).Nodup)
    (hf : db.find? (fun r => rowKey r == (s.listing_id, s.url)) = some r0) :
    (upsertSource db s now nid).find?
        (fun r => rowKey r == (s.listing_id, s.url)) = some (applyUpdate s now r0)
    ∧ (applyUpdate s now r0).title = s.title
    ∧ (applyUpdate s now r0).price = s.price
    ∧ (applyUpdate s now r0).location = s.location
    ∧ (applyUpdate s now r0).posted_date = s.posted_date
    ∧ (applyUpdate s now r0).description = s.description
    ∧ (applyUpdate s now r0).condition = s.condition
    ∧ (applyUpdate s now r0).measurements = s.measurements
    ∧ (applyUpdate s now r0).image_url = s.image_url
    ∧ (applyUpdate s now r0).scraped_at = now
    ∧ ((upsertSource db s now nid).map rowKey).Nodup
    ∧ (upsertSource db s now nid).countP
        (fun r => rowKey r == (s.listing_id, s.url)) = 1
    ∧ insertIgnoreSource db s now nid = db
    ∧ (insertIgnoreSource db s now nid).countP
        (fun r => rowKey r == (s.listing_id, s.url)) = 1 := by
  have hp0 := List.find?_some hf
  have hm0 := List.mem_of_find?_eq_some hf
  have hk0 : rowKey r0 = (s.listing_id, s.url) := by simpa using hp0
  have hkp : keyPresent db (s.listing_id, s.url) = true := by
    simp only [keyPresent, List.any_eq_true]
    exact ⟨r0, hm0, hp0⟩
  have hup : upsertSource db s now nid =
      db.map (fun r => if rowKey r == (s.listing_id, s.url) then applyUpdate s now r else r) := by
    simp [upsertSource, hkp]
  have hkeep : ∀ r : SourceRow,
      rowKey (if rowKey r == (s.listing_id, s.url) then applyUpdate s now r else r) =
        rowKey r := by
    intro r
    split
    · rfl
    · rfl
  have hpres : ((fun r : SourceRow => rowKey r == (s.listing_id, s.url)) ∘
      (fun r => if rowKey r == (s.listing_id, s.url) then applyUpdate s now r else r)) =
      (fun r : SourceRow => rowKey r == (s.listing_id, s.url)) := by
    funext r
    simp only [Function.comp]
    rw [hkeep r]
  have hcnt : db.countP (fun r => rowKey r == (s.listing_id, s.url)) = 1 :=
    countP_key_unique db (s.listing_id, s.url) hu r0 hm0 hk0
  have hign : insertIgnoreSource db s now nid = db := by
    simp [insertIgnoreSource, hkp]
  refine ⟨?_, rfl, rfl, rfl, rfl, rfl, rfl, rfl, rfl, rfl, ?_, ?_, hign, ?_⟩
  · rw [hup, List.find?_map]
    rw [hpres, hf]
    simp [hk0]
  · rw [hup, List.map_map]
    have hco : (rowKey ∘
        (fun r => if rowKey r == (s.listing_id, s.url) then applyUpdate s now r else r)) =
        rowKey := by
      funext r
      exact hkeep r
    rw [hco]
    exact hu
  · rw [hup, List.countP_map, hpres]
    exact hcnt
  · rw [hign]
    exact hcnt

/-- Witness for C1 on a one-row table holding the conflicting key. -/
theorem C1_upsert_conflict_witness :
    (upsertSource [c1row] c1new 2 5).find?
        (fun r => rowKey r == (c1new.listing_id, c1new.url)) =
      some (applyUpdate c1new 2 c1row)
    ∧ insertIgnoreSource [c1row] c1new 2 5 = [c1row] := by
  have h := C1_upsert_conflict [c1row] c1new 2 5 c1row (by decide) rfl
  exact ⟨h.1, h.2.2.2.2.2.2.2.2.2.2.2.2.1⟩

/-- Counterexample to C1 as stated: on the bulk scrape-add path a
conflicting insert leaves the existing row byte-for-byte unchanged, so
the scraped fields are not overwritten with the latest values (price
stays 10, not 20) and the scrape timestamp is not refreshed. -/
theorem C1_counterexample :
    insertIgnoreSource [c1row] c1new 2 5 = [c1row]
    ∧ c1row.price = some 10 ∧ c1new.price = some 20
    ∧ c1row.scraped_at = 0
    ∧ (some (10 : ℚ) ≠ some (20 : ℚ)) := by
  refine ⟨rfl, rfl, rfl, rfl, by norm_num⟩

/-- Claim C2 (amended): after the delete mutations (single delete and
delete-all) the recompute clears price_min/price_max/suggested_price to
null when zero priced sources remain; after the add mutations (single add
and bulk scrape-add) with zero priced sources the item's price fields are
left unchanged (the UPDATE is skipped), not set to null; whenever at
least one priced source remains, every path overwrites price_min and
price_max with the computed min and max and suggested_price with the
average rounded to 2 decimals (the code stores null instead when the
average is exactly zero, hence the non-zero hypothesis). -/
theorem C2_recompute_nulling (db db' : List SourceRow) (lid : ℕ)
    (it it' : Item) (a : ℚ)
    (h0 : pricesFor db lid = [])
    (havg : (priceStats db' lid).avg_price = some a)
    (ha : a ≠ 0) :
    (recomputeAfterDelete db lid it).price_min = none
    ∧ (recomputeAfterDelete db lid it).price_max = none
    ∧ (recomputeAfterDelete db lid it).suggested_price = none
    ∧ (deleteAllPath db lid it).2.price_min = none
    ∧ (deleteAllPath db lid it).2.price_max = none
    ∧ (deleteAllPath db lid it).2.suggested_price = none
    ∧ recomputeAfterAdd db lid it = it
    ∧ recomputeAfterScrape db lid it = { it with status := "ready" }
    ∧ recomputeAfterAdd db' lid it' =
        { it' with price_min := (priceStats db' lid).min_price,
                   price_max := (priceStats db' lid).max_price,
                   suggested_price := some (round2 a) }
    ∧ recomputeAfterDelete db' lid it' = recomputeAfterAdd db' lid it'
    ∧ recomputeAfterScrape db' lid it' =
        { recomputeAfterAdd db' lid it' with status := "ready" } := by
  have hcnt0 : (priceStats db lid).source_count = 0 := by
    simp [priceStats, h0]
  have hE : (pricesFor db' lid).isEmpty = false := by
    cases hE : (pricesFor db' lid).isEmpty with
    | false => rfl
    | true => simp [priceStats, hE] at havg
  have hcnt : 0 < (priceStats db' lid).source_count := by
    have : pricesFor db' lid ≠ [] := by
      intro hn
      rw [hn] at hE
      simp at hE
    simpa [priceStats] using List.length_pos.mpr this
  refine ⟨?_, ?_, ?_, ?_, ?_, ?_, ?_, ?_, ?_, ?_, ?_⟩ <;>
    simp [recomputeAfterDelete, recomputeAfterAdd, recomputeAfterScrape,
      deleteAllPath, clearPricing, applyStatsUpdate, hcnt0, hcnt, havg, ha]

/-- Witness for C2: a db with one unpriced source (prices untouched on
the add path, cleared on the delete path) and a db with one priced
source. -/
theorem C2_recompute_nulling_witness :
    recomputeAfterAdd c2dbZero 1 c2staleItem = c2staleItem
    ∧ (recomputeAfterDelete c2dbZero 1 c2staleItem).price_min = none := by
  have h := C2_recompute_nulling c2dbZero c2dbPos 1 c2staleItem c2staleItem 10
    rfl (by simp [priceStats, pricesFor, c2dbPos]) (by norm_num)
  exact ⟨h.2.2.2.2.2.2.1, h.1⟩

/-- Counterexample to C2 as stated: a single add that leaves zero priced
sources does not null the item's price fields — the stale price_min
survives, where the claim demands null. -/
theorem C2_counterexample :
    pricesFor (addSourcePath [] c2nullSource 1 1 c2staleItem).1 1 = []
    ∧ (addSourcePath [] c2nullSource 1 1 c2staleItem).2.price_min = some 5
    ∧ (addSourcePath [] c2nullSource 1 1 c2staleItem).2.price_min ≠ none := by
  have h2 : (addSourcePath [] c2nullSource 1 1 c2staleItem).2.price_min = some 5 := rfl
  exact ⟨rfl, h2, by rw [h2]; simp⟩

/-- Claim C3: for source prices [10.00, 20.00, 15.50] plus one null-price
source, the recompute aggregates only the non-null prices: count 3,
min 10.00, max 20.00, average 91/6 which rounds to 15.17; the recompute
writes 10, 20 and 15.17 to the item on both the add and the scrape
sites. -/
theorem C3_aggregate_example :
    priceStats c3rows 1 =
      { source_count := 3, min_price := some 10, max_price := some 20,
        avg_price := some (91 / 6) }
    ∧ round2 (91 / 6) = 15.17
    ∧ (recomputeAfterAdd c3rows 1 itBlank).price_min = some 10
    ∧ (recomputeAfterAdd c3rows 1 itBlank).price_max = some 20
    ∧ (recomputeAfterAdd c3rows 1 itBlank).suggested_price = some 15.17
    ∧ (recomputeAfterScrape c3rows 1 itBlank).suggested_price = some 15.17 := by
  have hp : pricesFor c3rows 1 = [10, 20, 15.5] := by
    simp [pricesFor, c3rows]
  have hr : round2 (91 / 6) = 15.17 := by
    norm_num [round2, roundHalfEven]
  have hst : priceStats c3rows 1 =
      { source_count := 3, min_price := some 10, max_price := some 20,
        avg_price := some (91 / 6) } := by
    simp [priceStats, hp, listMin, listMax]
    refine ⟨by norm_num [min_def], by norm_num [max_def], by norm_num⟩
  refine ⟨hst, hr, ?_, ?_, ?_, ?_⟩ <;>
    simp [recomputeAfterAdd, recomputeAfterScrape, hst, applyStatsUpdate] <;>
    norm_num [hr]

/-- Claim C6: `fetchDetails` never fails its caller — for every URL, on a
network failure during the detail fetch it returns a record in which all
four fields are absent (and, being a total function of the model, it
raises nothing to the orchestrator). -/
theorem C6_fetch_details_failure (net : String → Option Elem) (url : String)
    (h : net url = none) :
    fetchListingDetails net url = ⟨none, none, none, none⟩ := by
  simp [fetchListingDetails, h]

/-- Witness for C6 at a concrete URL and an always-failing network. -/
theorem C6_fetch_details_failure_witness :
    fetchListingDetails failNet "https://vermont.craigslist.org/d/x/1.html" =
      ⟨none, none, none, none⟩ :=
  C6_fetch_details_failure failNet "https://vermont.craigslist.org/d/x/1.html" rfl

/-- Claim C7: a transport failure on the primary search fetch makes
`search` return the empty list to the caller; no exception propagates
(the embedded `search` is total). -/
theorem C7_search_transport_failure (net : String → Option Elem)
    (base query : String) (m : ℕ)
    (h : net (searchUrl base query) = none) :
    search net base query m = [] := by
  simp [search, h]

/-- Witness for C7: a timed-out search fetch on a concrete query. -/
theorem C7_search_transport_failure_witness :
    search failNet "https://vermont.craigslist.org" "counter top" 10 = [] :=
  C7_search_transport_failure failNet "https://vermont.craigslist.org"
    "counter top" 10 rfl

/-- Claim C10: constructing the scraper with a region outside the fixed
set does not fail — the base URL defaults to the vermont mirror, and a
search against the unknown region coincides with a vermont search. -/
theorem C10_unknown_region (region : String)
    (h1 : region ≠ "vermont") (h2 : region ≠ "newhampshire")
    (h3 : region ≠ "boston") :
    baseUrlFor region = baseUrlFor "vermont"
    ∧ ∀ net query m,
        search net (baseUrlFor region) query m =
          search net (baseUrlFor "vermont") query m := by
  have e1 : (("vermont" : String) == region) = false :=
    beq_eq_false_iff_ne.mpr (Ne.symm h1)
  have e2 : (("newhampshire" : String) == region) = false :=
    beq_eq_false_iff_ne.mpr (Ne.symm h2)
  have e3 : (("boston" : String) == region) = false :=
    beq_eq_false_iff_ne.mpr (Ne.symm h3)
  have hb : baseUrlFor region = "https://vermont.craigslist.org" := by
    simp [baseUrlFor, BASE_URLS, List.find?, e1, e2, e3]
  have hv : baseUrlFor "vermont" = "https://vermont.craigslist.org" := rfl
  refine ⟨by rw [hb, hv], fun net query m => by rw [hb, hv]⟩

/-- Witness for C10 at the unknown region `montreal`. -/
theorem C10_unknown_region_witness :
    baseUrlFor "montreal" = baseUrlFor "vermont" :=
  (C10_unknown_region "montreal" (by decide) (by decide) (by decide)).1

end ListingAssistant
